import Mathlib

/-
Shallow embedding of the py_m3u repository (src/src/py_m3u/_m3u.py) in Lean 4.

The filesystem is modelled as an explicit collaborator record `FS`
(existence check, is-directory check, directory listing), matching the
"Filesystem collaborator" interface of the design document.  Python's
`str.splitlines`, `str.isspace`, `str.startswith` and `str.endswith` are
embedded faithfully by code point.  The `py_m3u.directives` module is not
part of the sources and is modelled from the specification (see the
doc comments marked "Modelled from the spec").
-/

set_option linter.unusedVariables false

/-- Python `str.splitlines` line-boundary characters, by code point
(LF, VT, FF, CR, FS, GS, RS, NEL, LINE SEPARATOR, PARAGRAPH SEPARATOR). -/
def isLineBoundary (c : Char) : Bool :=
  c.toNat == 0x0A || c.toNat == 0x0B || c.toNat == 0x0C || c.toNat == 0x0D ||
  c.toNat == 0x1C || c.toNat == 0x1D || c.toNat == 0x1E || c.toNat == 0x85 ||
  c.toNat == 0x2028 || c.toNat == 0x2029

/-- Worker for Python `str.splitlines`: split at every line boundary, treating
CR LF as a single boundary; a trailing fragment without a final boundary is
kept, and an empty trailing fragment after the last boundary is not. -/
def pySplitlinesAux : List Char → List Char → List String
  | acc, [] => if acc.isEmpty then [] else [String.mk acc.reverse]
  | acc, '\r' :: '\n' :: rest => String.mk acc.reverse :: pySplitlinesAux [] rest
  | acc, c :: rest =>
    if isLineBoundary c then String.mk acc.reverse :: pySplitlinesAux [] rest
    else pySplitlinesAux (c :: acc) rest

/-- Python `str.splitlines`. -/
def pySplitlines (s : String) : List String :=
  pySplitlinesAux [] s.data

/-- Python whitespace characters, by code point (the set accepted by
`str.isspace`). -/
def pyIsSpaceChar (c : Char) : Bool :=
  (0x09 ≤ c.toNat && c.toNat ≤ 0x0D) || (0x1C ≤ c.toNat && c.toNat ≤ 0x1F) ||
  c.toNat == 0x20 || c.toNat == 0x85 || c.toNat == 0xA0 || c.toNat == 0x1680 ||
  (0x2000 ≤ c.toNat && c.toNat ≤ 0x200A) || c.toNat == 0x2028 ||
  c.toNat == 0x2029 || c.toNat == 0x202F || c.toNat == 0x205F ||
  c.toNat == 0x3000

/-- Python `str.isspace`: true iff the string is nonempty and every character
is whitespace.  In particular the empty string is NOT whitespace-only. -/
def pyIsspace (s : String) : Bool :=
  !s.data.isEmpty && s.data.all pyIsSpaceChar

/-- Python `string.startswith(p)`. -/
def pyStartswith (s p : String) : Bool :=
  p.data.isPrefixOf s.data

/-- Python `string.endswith(p)` for a single suffix. -/
def pyEndswith (s p : String) : Bool :=
  p.data.isSuffixOf s.data

/-- Python `string.endswith(tuple)`: true iff some listed suffix matches. -/
def endswithAny (s : String) (suffixes : List String) : Bool :=
  suffixes.any (pyEndswith s)

/-- Embedding of `matched_prefix_dict` (src/src/py_m3u/_m3u.py): scan the
ordered dictionary entries and return the value of the first key that is a
literal prefix of `string`; return `default_value` if none matches. -/
def matched_prefix_dict {α : Type} (string : String)
    (prefix_dicts : List (String × α)) (default_value : Option α) : Option α :=
  match prefix_dicts with
  | [] => default_value
  | (p, v) :: rest =>
    if pyStartswith string p then some v
    else matched_prefix_dict string rest default_value

/-- Error raised when a directive line matches a prefix but fails that
variant's grammar (`MalformedDirectiveError`-class of the design). -/
structure MalformedDirectiveError where
  line : String
deriving DecidableEq, Repr

/-- Error raised when a directory cannot be listed (`NotFoundError`-class,
the Python `FileNotFoundError` from `os.listdir`). -/
structure NotFoundError where
  path : String
deriving DecidableEq, Repr

/-- Modelled from the spec: a single-digit test by code point, used by the
numeric-duration grammar of the Metadata directive. -/
def pyIsDigit (c : Char) : Bool :=
  0x30 ≤ c.toNat && c.toNat ≤ 0x39

/-- Modelled from the spec: a nonempty run of digits. -/
def isDigits (l : List Char) : Bool :=
  !l.isEmpty && l.all pyIsDigit

/-- Modelled from the spec: an unsigned "integer or decimal" numeral —
digits, optionally followed by a dot and digits. -/
def isUnsignedDecimal (l : List Char) : Bool :=
  let intPart := l.takeWhile pyIsDigit
  let rest := l.dropWhile pyIsDigit
  !intPart.isEmpty && (rest.isEmpty || (rest.head? == some '.' && isDigits rest.tail))

/-- Modelled from the spec: an "integer or decimal" numeral with an optional
leading minus sign (the duration field grammar of the Metadata directive). -/
def isSignedDecimal (s : String) : Bool :=
  match s.data with
  | '-' :: t => isUnsignedDecimal t
  | t => isUnsignedDecimal t

/-- Modelled from the spec: the fixed prefix of the Metadata (`EXTINF`)
directive, as in the scenario line `#EXTINF:123,My Song`. -/
def extinfHead : String := "#EXTINF:"

/-- Modelled from the spec: the `EXTINF` Metadata directive of the missing
`py_m3u.directives` module — a numeric duration (kept as its numeric text)
and a display title (the remainder of the line verbatim). -/
structure EXTINF where
  duration : String
  title : String
deriving DecidableEq, Repr

/-- Strip a literal head from a character list; `none` when the head does not
match. -/
def stripHead : List Char → List Char → Option (List Char)
  | [], rest => some rest
  | _ :: _, [] => none
  | p :: ps, c :: cs => if p == c then stripHead ps cs else none

/-- Modelled from the spec: `EXTINF.from_m3u_string` parses a line of the form
`#EXTINF:<duration>,<title>`; the duration must be a numeral and must be
followed by a comma; the title is the remainder verbatim; otherwise a
`MalformedDirectiveError` is raised. -/
def EXTINF.from_m3u_string (line : String) :
    Except MalformedDirectiveError EXTINF :=
  match stripHead extinfHead.data line.data with
  | none => Except.error ⟨line⟩
  | some rest =>
    let dur := rest.takeWhile (fun c => !(c == ','))
    match rest.dropWhile (fun c => !(c == ',')) with
    | ',' :: titleChars =>
      if isSignedDecimal (String.mk dur) then
        Except.ok ⟨String.mk dur, String.mk titleChars⟩
      else Except.error ⟨line⟩
    | _ => Except.error ⟨line⟩

/-- Modelled from the spec: `EXTINF.as_m3u` renders the directive back to its
textual form `#EXTINF:<duration>,<title>`. -/
def EXTINF.as_m3u (d : EXTINF) : String :=
  extinfHead ++ d.duration ++ "," ++ d.title

/-- Modelled from the spec: a registry descriptor — the per-variant
parse-from-line function of a directive class. -/
structure DirectiveDescriptor where
  from_m3u_string : String → Except MalformedDirectiveError EXTINF

/-- Modelled from the spec: the ordered registry `ALL_DIRECTIVE_PREFIXES` of
the missing `py_m3u.directives` module, mapping each directive prefix to its
class; `EXTINF` is the one documented variant. -/
def ALL_DIRECTIVE_PREFIXES : List (String × DirectiveDescriptor) :=
  [(extinfHead, ⟨EXTINF.from_m3u_string⟩)]

/-- Filesystem collaborator (design §6): existence check, is-directory check,
and directory listing, where `none` from `listdir` stands for the
`NotFoundError`-raising failure of `os.listdir`. -/
structure FS where
  pathExists : String → Bool
  isdir : String → Bool
  listdir : String → Option (List String)

/-- Embedding of the class attribute
`AudioFileRef.supported_audio_file_extensions`. -/
def supported_audio_file_extensions : List String := [".mp3"]

/-- Embedding of the `AudioFileRef` object: source path, optional attached
`EXTINF`, and the two optional (absent when not checked) booleans. -/
structure AudioFileRef where
  source : String
  external_info : Option EXTINF
  exists_ : Option Bool
  is_supported : Option Bool
deriving DecidableEq, Repr

/-- Embedding of `AudioFileRef.__init__`: store the source and external info;
perform the existence check only when `validate_existence` and the extension
check only when `check_extension`, leaving the field absent otherwise. -/
def AudioFileRef.init (fs : FS) (source : String)
    (external_info : Option EXTINF) (validate_existence : Bool)
    (check_extension : Bool) : AudioFileRef :=
  { source := source
    external_info := external_info
    exists_ := if validate_existence then some (fs.pathExists source) else none
    is_supported :=
      if check_extension then
        some (endswithAny source supported_audio_file_extensions)
      else none }

/-- Embedding of the `AudioDirRef` object: directory path, eagerly computed
child `AudioFileRef`s, and the two optional booleans. -/
structure AudioDirRef where
  directory : String
  audio_files : List AudioFileRef
  exists_ : Option Bool
  is_dir : Option Bool
deriving DecidableEq, Repr

/-- Embedding of `AudioDirRef.__init__`: list the directory (propagating the
`NotFoundError` of `os.listdir` when the listing fails), wrap every listed
name in an `AudioFileRef` with the Python-default `validate_existence=True`
and the forwarded `check_extension`, then perform the optional existence and
is-directory checks. -/
def AudioDirRef.init (fs : FS) (directory : String)
    (validate_existence : Bool) (validate_directory : Bool)
    (check_extension : Bool) : Except NotFoundError AudioDirRef :=
  match fs.listdir directory with
  | none => Except.error ⟨directory⟩
  | some names =>
    Except.ok
      { directory := directory
        audio_files :=
          names.map (fun file => AudioFileRef.init fs file none true check_extension)
        exists_ :=
          if validate_existence then some (fs.pathExists directory) else none
        is_dir :=
          if validate_directory then some (fs.isdir directory) else none }

/-- One value yielded by `M3UParser.loads` when the line produced a new
object: a parsed directive or an `AudioFileRef`. -/
inductive ParsedItem where
  | directive (d : EXTINF)
  | file (f : AudioFileRef)
deriving DecidableEq, Repr

/-- One item accepted by `M3UParser.dumps`
(`Union[AudioFileRef, AudioDirRef, Directive]`). -/
inductive M3UObj where
  | file (f : AudioFileRef)
  | dir (d : AudioDirRef)
  | directive (d : EXTINF)
deriving DecidableEq, Repr

/-- The string `M3UParser.dumps` appends for one argument (the body of its
loop before the trailing newline): an `AudioFileRef` contributes its external
info string (empty when absent), a newline, then its source; an `AudioDirRef`
contributes its directory path; a directive contributes its rendered line. -/
def M3UParser.dumpsItem (m3u_obj : M3UObj) : String :=
  match m3u_obj with
  | M3UObj.file f =>
    let external_info_string :=
      match f.external_info with
      | some e => e.as_m3u
      | none => ""
    external_info_string ++ "\n" ++ f.source
  | M3UObj.dir d => d.directory
  | M3UObj.directive d => d.as_m3u

/-- Embedding of `M3UParser.dumps`: fold over the arguments, appending each
item's string and one newline. -/
def M3UParser.dumps (args : List M3UObj) : String :=
  args.foldl (fun m3u_string m3u_obj =>
    m3u_string ++ M3UParser.dumpsItem m3u_obj ++ "\n") ""

/-- Embedding of `M3UParser.dump`: it invokes `dumps` with zero playlist
arguments and writes the result to the file handle; the value written is
returned here. -/
def M3UParser.dump : String := M3UParser.dumps []

/-- Embedding of the loop of `M3UParser.loads`, carrying the generator state:
`parsed_line` (the previous yielded value) and `last_external_info` (the
pending Metadata directive).  Per line: on a registry prefix match, parse the
directive (propagating `MalformedDirectiveError`), yield it and record it as
pending external info (every registered variant is an `EXTINF`, so the
`isinstance` test of the source holds); on no match, a whitespace-only line
re-yields the previous value unchanged, and any other line yields a new
`AudioFileRef` built from the raw line with the pending external info, which
is then reset.  The result pairs the yielded values with the terminal error,
if any (values yielded before a failure are preserved). -/
def M3UParser.loadsGo (fs : FS) (parsed_line : Option ParsedItem)
    (last_external_info : Option EXTINF) :
    List String → List (Option ParsedItem) × Option MalformedDirectiveError
  | [] => ([], none)
  | line :: rest =>
    match matched_prefix_dict line ALL_DIRECTIVE_PREFIXES none with
    | some desc =>
      match desc.from_m3u_string line with
      | Except.error e => ([], some e)
      | Except.ok directive_obj =>
        let out :=
          M3UParser.loadsGo fs (some (ParsedItem.directive directive_obj))
            (some directive_obj) rest
        (some (ParsedItem.directive directive_obj) :: out.1, out.2)
    | none =>
      if pyIsspace line then
        let out := M3UParser.loadsGo fs parsed_line last_external_info rest
        (parsed_line :: out.1, out.2)
      else
        let f := AudioFileRef.init fs line last_external_info true true
        let out := M3UParser.loadsGo fs (some (ParsedItem.file f)) none rest
        (some (ParsedItem.file f) :: out.1, out.2)

/-- Embedding of `M3UParser.loads`: split the input with Python
`str.splitlines` and run the per-line loop from the initial state
(`parsed_line = None`, `last_external_info = None`). -/
def M3UParser.loads (fs : FS) (m3u_string : String) :
    List (Option ParsedItem) × Option MalformedDirectiveError :=
  M3UParser.loadsGo fs none none (pySplitlines m3u_string)

/-- A concrete filesystem on which nothing exists and no directory lists. -/
def emptyFS : FS :=
  { pathExists := fun _ => false
    isdir := fun _ => false
    listdir := fun _ => none }

/-- A concrete filesystem whose single directory `/music` lists exactly
`song.mp3`, `image.jpg`, `readme.txt`, in that order. -/
def musicFS : FS :=
  { pathExists := fun _ => false
    isdir := fun s => s == "/music"
    listdir := fun s =>
      if s == "/music" then some ["song.mp3", "image.jpg", "readme.txt"]
      else none }

/-- The `AudioDirRef` value produced by constructing over `/music` of
`musicFS` with all checks enabled. -/
def musicDirRef : AudioDirRef :=
  { directory := "/music"
    audio_files := [AudioFileRef.init musicFS "song.mp3" none true true,
      AudioFileRef.init musicFS "image.jpg" none true true,
      AudioFileRef.init musicFS "readme.txt" none true true]
    exists_ := some (musicFS.pathExists "/music")
    is_dir := some (musicFS.isdir "/music") }

/-- Rebuilding a string from its character data is the identity. -/
theorem mk_data (s : String) : String.mk s.data = s := by
  cases s
  rfl

/-- A whitespace-only line cannot start with the `#EXTINF:` prefix, so it
matches nothing in the registry. -/
theorem no_match_of_isspace (line : String) (h : pyIsspace line = true) :
    matched_prefix_dict line ALL_DIRECTIVE_PREFIXES none =
      (none : Option DirectiveDescriptor) := by
  have hs : pyStartswith line extinfHead = false := by
    by_contra hb
    rw [Bool.not_eq_false] at hb
    simp only [pyStartswith] at hb
    obtain ⟨t, ht⟩ := List.isPrefixOf_iff_prefix.mp hb
    have hd : extinfHead.data = '#' :: ['E', 'X', 'T', 'I', 'N', 'F', ':'] := rfl
    rw [hd] at ht
    simp only [pyIsspace, ← ht, List.cons_append, List.isEmpty_cons,
      List.all_cons, Bool.not_false, Bool.true_and, Bool.and_eq_true] at h
    exact absurd h.1 (by decide)
  simp [matched_prefix_dict, ALL_DIRECTIVE_PREFIXES, hs]

/-- The no-op rule of the `loads` loop: a whitespace-only line re-yields the
previous value and leaves the whole generator state unchanged. -/
theorem loadsGo_space (fs : FS) (pl : Option ParsedItem) (last : Option EXTINF)
    (line : String) (rest : List String) (h : pyIsspace line = true) :
    M3UParser.loadsGo fs pl last (line :: rest) =
      (pl :: (M3UParser.loadsGo fs pl last rest).1,
        (M3UParser.loadsGo fs pl last rest).2) := by
  simp [M3UParser.loadsGo, no_match_of_isspace line h, h]

/-- C10: `M3UParser.dump` always writes the empty string: it passes no
playlist items to `dumps`, and `dumps` of zero items is the empty string. -/
theorem dump_writes_empty_string :
    M3UParser.dump = "" ∧ M3UParser.dumps [] = "" :=
  ⟨rfl, rfl⟩

/-- C3: for an `AudioFileRef` without external info, `dumps` does NOT emit
just the source string — it emits an empty info string, then a newline, then
the source, so the output for `/music/a.mp3` is `"\n/music/a.mp3\n"` and not
`"/music/a.mp3\n"`. -/
theorem dumps_fileref_without_info_leading_newline :
    M3UParser.dumps
        [M3UObj.file (AudioFileRef.init emptyFS "/music/a.mp3" none true true)]
      = "\n/music/a.mp3\n"
    ∧ "\n/music/a.mp3\n" ≠ "/music/a.mp3\n" := by
  constructor
  · rfl
  · decide

/-- C7: `matched_prefix_dict` returns the value of the first entry, in
insertion order, whose key is a literal prefix of the line, and the default
if none matches; in particular with "AB" registered before "A" the line
"ABC" matches the "AB" entry. -/
theorem matched_prefix_dict_first_match :
    (∀ (α : Type) (s : String) (l : List (String × α)) (d : Option α),
      matched_prefix_dict s l d =
        (l.find? (fun pv => pyStartswith s pv.1)).elim d (fun pv => some pv.2))
    ∧ matched_prefix_dict "ABC" [("AB", 0), ("A", 1)] none = some 0 := by
  constructor
  · intro α s l d
    induction l with
    | nil => rfl
    | cons hd tl ih =>
      obtain ⟨p, v⟩ := hd
      cases hp : pyStartswith s p
      · simp [matched_prefix_dict, hp, List.find?_cons, ih]
      · simp [matched_prefix_dict, hp, List.find?_cons]
  · decide

/-- C2 counterexample: on the input `"/music/a.mp3\n\n/music/b.mp3\n"` the
middle line is the empty string, which Python `isspace` rejects, so `loads`
yields three items whose second is a fresh `AudioFileRef` with empty source
— NOT a repeat of the first item. -/
theorem loads_empty_line_creates_fileref :
    (M3UParser.loads emptyFS "/music/a.mp3\n\n/music/b.mp3\n").1.length = 3
    ∧ (M3UParser.loads emptyFS "/music/a.mp3\n\n/music/b.mp3\n").1[1]? ≠
        (M3UParser.loads emptyFS "/music/a.mp3\n\n/music/b.mp3\n").1[0]? := by
  constructor
  · rfl
  · decide

/-- C2 amended: an input line that is nonempty and all-whitespace makes
`loads` re-emit the previous output value unchanged and create no new item;
for the input `"/music/a.mp3\n \n/music/b.mp3\n"` (a single space as middle
line) `loads` yields exactly three items and the second equals the first. -/
theorem loads_whitespace_line_reemits :
    (∀ (fs : FS) (pl : Option ParsedItem) (last : Option EXTINF)
        (line : String) (rest : List String), pyIsspace line = true →
        M3UParser.loadsGo fs pl last (line :: rest) =
          (pl :: (M3UParser.loadsGo fs pl last rest).1,
            (M3UParser.loadsGo fs pl last rest).2))
    ∧ (M3UParser.loads emptyFS "/music/a.mp3\n \n/music/b.mp3\n").1.length = 3
    ∧ (M3UParser.loads emptyFS "/music/a.mp3\n \n/music/b.mp3\n").1[1]? =
        (M3UParser.loads emptyFS "/music/a.mp3\n \n/music/b.mp3\n").1[0]? := by
  refine ⟨loadsGo_space, rfl, ?_⟩
  decide

/-- Witness for the amended C2 at a concrete whitespace line. -/
theorem loads_whitespace_line_reemits_witness :
    M3UParser.loadsGo emptyFS none none [" "] = ([none], none) := by
  have h := loads_whitespace_line_reemits.1 emptyFS none none " " [] (by decide)
  simpa [M3UParser.loadsGo] using h

/-- C9: whitespace-only lines at the start of the input, before any previous
output value exists, each make `loads` yield the absent value `none`; on
`" \n\t\n/x.mp3"` the first two yields are `none`. -/
theorem loads_leading_whitespace_absent_items :
    (∀ (fs : FS) (ws rest : List String), (∀ l ∈ ws, pyIsspace l = true) →
      M3UParser.loadsGo fs none none (ws ++ rest) =
        (List.replicate ws.length none ++ (M3UParser.loadsGo fs none none rest).1,
          (M3UParser.loadsGo fs none none rest).2))
    ∧ (M3UParser.loads emptyFS " \n\t\n/x.mp3").1 =
        [none, none,
          some (ParsedItem.file (AudioFileRef.init emptyFS "/x.mp3" none true true))] := by
  constructor
  · intro fs ws rest h
    induction ws with
    | nil => simp
    | cons l ls ih =>
      rw [List.cons_append, loadsGo_space fs none none l (ls ++ rest)
        (h l (by simp))]
      rw [ih (fun x hx => h x (by simp [hx]))]
      simp [List.replicate_succ]
  · decide

/-- Witness for C9 at a concrete input with one leading whitespace line. -/
theorem loads_leading_whitespace_absent_items_witness :
    M3UParser.loadsGo emptyFS none none ([" "] ++ []) =
      (List.replicate 1 none ++ (M3UParser.loadsGo emptyFS none none []).1,
        (M3UParser.loadsGo emptyFS none none []).2) :=
  loads_leading_whitespace_absent_items.1 emptyFS [" "] [] (by decide)

/-- C4 counterexample: the directory listing `song.mp3`, `image.jpg`,
`readme.txt` yields an `audio_files` sequence with THREE `AudioFileRef`s —
no extension filtering removes the non-audio entries — not exactly one. -/
theorem dirref_wraps_all_children :
    (AudioDirRef.init musicFS "/music" true true true).map
        (fun r => r.audio_files.length) = Except.ok 3
    ∧ (3 : Nat) ≠ 1 := by
  constructor
  · rfl
  · decide

/-- C4 amended: over the listing `song.mp3`, `image.jpg`, `readme.txt` the
`audio_files` sequence wraps all three entries in listing order; with
`check_extension` true (the default) each child is extension-checked and
exactly `song.mp3` is marked supported; with `check_extension` false the
children are not extension-checked at all. -/
theorem dirref_children_extension_flags :
    (AudioDirRef.init musicFS "/music" true true true).map
        (fun r => r.audio_files.map (fun f => (f.source, f.is_supported)))
      = Except.ok [("song.mp3", some true), ("image.jpg", some false),
          ("readme.txt", some false)]
    ∧ (AudioDirRef.init musicFS "/music" true true false).map
        (fun r => r.audio_files.map (fun f => f.is_supported))
      = Except.ok [none, none, none]
    ∧ (AudioDirRef.init musicFS "/music" true true true).map
        (fun r => (r.audio_files.filter
          (fun f => f.is_supported == some true)).map (fun f => f.source))
      = Except.ok ["song.mp3"] :=
  ⟨rfl, rfl, rfl⟩

/-- C5 counterexample: the children of an `AudioDirRef` are NOT built with
existence-checking suppressed — every child of the `/music` listing carries
`exists_ = some false` (the check ran and stored a result), not the absent
value. -/
theorem dirref_children_existence_checked :
    (AudioDirRef.init musicFS "/music" true true true).map
        (fun r => r.audio_files.map (fun f => f.exists_))
      = Except.ok [some false, some false, some false]
    ∧ some false ≠ (none : Option Bool) := by
  constructor
  · rfl
  · decide

/-- C5 amended: every child `AudioFileRef` of a successfully constructed
`AudioDirRef` is built from the bare listed name with no external info, with
existence-checking ENABLED (the Python default, so `exists_` is a stored
boolean, never absent), and with only the `check_extension` flag forwarded. -/
theorem dirref_children_construction (fs : FS) (directory : String)
    (v w c : Bool) (r : AudioDirRef)
    (h : AudioDirRef.init fs directory v w c = Except.ok r) :
    ∀ f ∈ r.audio_files, f.external_info = none
      ∧ f.exists_ = some (fs.pathExists f.source)
      ∧ f.is_supported = (if c then
          some (endswithAny f.source supported_audio_file_extensions)
        else none) := by
  intro f hf
  unfold AudioDirRef.init at h
  cases hl : fs.listdir directory with
  | none =>
    rw [hl] at h
    exact absurd h (by simp)
  | some names =>
    rw [hl] at h
    simp only [Except.ok.injEq] at h
    rw [← h] at hf
    simp only [List.mem_map] at hf
    obtain ⟨name, hname, rfl⟩ := hf
    refine ⟨rfl, rfl, ?_⟩
    simp [AudioFileRef.init]

/-- Witness for the amended C5 at the concrete `/music` construction. -/
theorem dirref_children_construction_witness :
    (AudioFileRef.init musicFS "song.mp3" none true true).external_info = none
    ∧ (AudioFileRef.init musicFS "song.mp3" none true true).exists_ =
        some (musicFS.pathExists
          (AudioFileRef.init musicFS "song.mp3" none true true).source)
    ∧ (AudioFileRef.init musicFS "song.mp3" none true true).is_supported =
        (if true then
          some (endswithAny
            (AudioFileRef.init musicFS "song.mp3" none true true).source
            supported_audio_file_extensions)
        else none) :=
  dirref_children_construction musicFS "/music" true true true musicDirRef
    (by rfl) (AudioFileRef.init musicFS "song.mp3" none true true) (by decide)

/-- C8: constructing an `AudioDirRef` fails exactly when the directory
listing fails, and then it fails with the `NotFoundError` carrying the
directory path; `AudioFileRef` construction is total — it returns a value for
every path, storing the (possibly negative) existence-check outcome instead
of raising. -/
theorem dirref_listdir_failure_propagates (fs : FS) (directory : String)
    (v w c : Bool) (s : String) (i : Option EXTINF) (ve ce : Bool) :
    ((AudioDirRef.init fs directory v w c).isOk = (fs.listdir directory).isSome)
    ∧ (AudioDirRef.init fs directory v w c = Except.error ⟨directory⟩
        ∨ (AudioDirRef.init fs directory v w c).isOk = true)
    ∧ (AudioFileRef.init fs s i ve ce).source = s
    ∧ (AudioFileRef.init fs s i ve ce).exists_ =
        (if ve then some (fs.pathExists s) else none) := by
  refine ⟨?_, ?_, rfl, rfl⟩
  · unfold AudioDirRef.init
    cases fs.listdir directory <;> rfl
  · unfold AudioDirRef.init
    cases fs.listdir directory
    · exact Or.inl rfl
    · exact Or.inr rfl

/-- C6: when a Metadata directive line is immediately followed by a
non-directive, non-whitespace path line, the `AudioFileRef` emitted for the
path line carries that directive as its `external_info`, and the pending
metadata is reset to absent for the rest of the parse. -/
theorem loads_metadata_attachment (fs : FS) (pl : Option ParsedItem)
    (last : Option EXTINF) (dline pline : String) (rest : List String)
    (d : EXTINF)
    (hd : pyStartswith dline extinfHead = true)
    (hparse : EXTINF.from_m3u_string dline = Except.ok d)
    (hp : matched_prefix_dict pline ALL_DIRECTIVE_PREFIXES none =
      (none : Option DirectiveDescriptor))
    (hw : pyIsspace pline = false) :
    M3UParser.loadsGo fs pl last (dline :: pline :: rest) =
      (some (ParsedItem.directive d) ::
        some (ParsedItem.file (AudioFileRef.init fs pline (some d) true true)) ::
        (M3UParser.loadsGo fs
          (some (ParsedItem.file (AudioFileRef.init fs pline (some d) true true)))
          none rest).1,
        (M3UParser.loadsGo fs
          (some (ParsedItem.file (AudioFileRef.init fs pline (some d) true true)))
          none rest).2) := by
  have hm : matched_prefix_dict dline ALL_DIRECTIVE_PREFIXES none =
      some ⟨EXTINF.from_m3u_string⟩ := by
    simp [matched_prefix_dict, ALL_DIRECTIVE_PREFIXES, hd]
  simp [M3UParser.loadsGo, hm, hparse, hp, hw]

/-- Witness for C6 on the scenario input `#EXTINF:123,My Song` followed by
`/music/song.mp3`. -/
theorem loads_metadata_attachment_witness :
    M3UParser.loadsGo emptyFS none none ["#EXTINF:123,My Song", "/music/song.mp3"] =
      ([some (ParsedItem.directive ⟨"123", "My Song"⟩),
        some (ParsedItem.file (AudioFileRef.init emptyFS "/music/song.mp3"
          (some ⟨"123", "My Song"⟩) true true))], none) := by
  have h := loads_metadata_attachment emptyFS none none "#EXTINF:123,My Song"
    "/music/song.mp3" [] ⟨"123", "My Song"⟩ (by decide) (by rfl) (by rfl)
    (by decide)
  simpa [M3UParser.loadsGo] using h

/-- Splitting step: a non-boundary character is accumulated into the current
line. -/
theorem splitAux_cons_nonboundary (acc : List Char) (c : Char)
    (rest : List Char) (h : isLineBoundary c = false) :
    pySplitlinesAux acc (c :: rest) = pySplitlinesAux (c :: acc) rest := by
  have hcr : c ≠ '\r' := by
    intro he
    subst he
    exact absurd h (by decide)
  rw [pySplitlinesAux.eq_def]
  split
  · simp_all
  · rename_i heq
    simp only [List.cons.injEq] at heq
    exact absurd heq.1 hcr
  · rename_i heq
    simp only [List.cons.injEq] at heq
    obtain ⟨h1, h2⟩ := heq
    subst h1
    subst h2
    simp [h]

/-- Splitting step: a line-feed closes the current line. -/
theorem splitAux_newline (acc rest : List Char) :
    pySplitlinesAux acc ('\n' :: rest) =
      String.mk acc.reverse :: pySplitlinesAux [] rest := by
  rw [pySplitlinesAux.eq_def]
  split
  · simp_all
  · rename_i heq
    simp only [List.cons.injEq] at heq
    exact absurd heq.1 (by decide)
  · rename_i heq
    simp only [List.cons.injEq] at heq
    obtain ⟨h1, h2⟩ := heq
    subst h2
    rw [← h1]
    simp [show isLineBoundary '\n' = true from by decide]

/-- A line of non-boundary characters followed by a line feed is split off as
one line. -/
theorem splitAux_line (l : List Char) (h : ∀ c ∈ l, isLineBoundary c = false) :
    ∀ (acc rest : List Char),
      pySplitlinesAux acc (l ++ '\n' :: rest) =
        String.mk (acc.reverse ++ l) :: pySplitlinesAux [] rest := by
  induction l with
  | nil =>
    intro acc rest
    rw [List.nil_append, splitAux_newline]
    simp
  | cons c l ih =>
    intro acc rest
    rw [List.cons_append, splitAux_cons_nonboundary acc c _ (h c (by simp))]
    rw [ih (fun x hx => h x (by simp [hx])) (c :: acc) rest]
    simp

/-- Unfolding of the `dumps` fold: folding from any initial string prepends
that string to the fold from the empty string. -/
theorem dumps_foldl_init (l : List M3UObj) : ∀ (init : String),
    l.foldl (fun m3u_string m3u_obj =>
        m3u_string ++ M3UParser.dumpsItem m3u_obj ++ "\n") init =
      init ++ M3UParser.dumps l := by
  induction l with
  | nil =>
    intro init
    have hnil : M3UParser.dumps [] = "" := rfl
    rw [List.foldl_nil, hnil, String.append_empty]
  | cons x xs ih =>
    intro init
    have hrhs : M3UParser.dumps (x :: xs) =
        xs.foldl (fun m3u_string m3u_obj =>
          m3u_string ++ M3UParser.dumpsItem m3u_obj ++ "\n")
          ("" ++ M3UParser.dumpsItem x ++ "\n") := rfl
    rw [List.foldl_cons, ih, hrhs, ih, String.empty_append,
      String.append_assoc init _ "\n", String.append_assoc]

/-- `dumps` emits the head item's string, one newline, then the rest. -/
theorem dumps_cons (x : M3UObj) (xs : List M3UObj) :
    M3UParser.dumps (x :: xs) =
      (M3UParser.dumpsItem x ++ "\n") ++ M3UParser.dumps xs := by
  have hlhs : M3UParser.dumps (x :: xs) =
      xs.foldl (fun m3u_string m3u_obj =>
        m3u_string ++ M3UParser.dumpsItem m3u_obj ++ "\n")
        ("" ++ M3UParser.dumpsItem x ++ "\n") := rfl
  rw [hlhs, dumps_foldl_init, String.empty_append]

/-- Every character of an unsigned numeral lies in the code-point range
45–57 (digits, the dot; in particular never a comma and never a line
boundary). -/
theorem udec_chars (l : List Char) (h : isUnsignedDecimal l = true) :
    ∀ c ∈ l, 45 ≤ c.toNat ∧ c.toNat ≤ 57 := by
  intro c hc
  simp only [isUnsignedDecimal, Bool.and_eq_true, Bool.or_eq_true] at h
  rw [← List.takeWhile_append_dropWhile (p := pyIsDigit) (l := l),
    List.mem_append] at hc
  cases hc with
  | inl hc =>
    have hd := List.mem_takeWhile_imp hc
    simp only [pyIsDigit, Bool.and_eq_true, decide_eq_true_eq] at hd
    omega
  | inr hc =>
    cases h.2 with
    | inl he =>
      rw [List.isEmpty_iff] at he
      rw [he] at hc
      simp at hc
    | inr hh =>
      cases hrest : l.dropWhile pyIsDigit with
      | nil =>
        rw [hrest] at hc
        simp at hc
      | cons c0 t =>
        rw [hrest] at hc hh
        obtain ⟨hhead, htail⟩ := hh
        simp only [List.head?_cons, beq_iff_eq, Option.some.injEq] at hhead
        rw [List.mem_cons] at hc
        cases hc with
        | inl hceq =>
          subst hceq
          rw [hhead]
          decide
        | inr hct =>
          simp only [isDigits, List.tail_cons, Bool.and_eq_true,
            List.all_eq_true] at htail
          have hd := htail.2 c hct
          simp only [pyIsDigit, Bool.and_eq_true, decide_eq_true_eq] at hd
          omega

/-- Every character of a signed numeral lies in the code-point range 45–57
(digits, the dot, the minus sign). -/
theorem sdec_chars (s : String) (h : isSignedDecimal s = true) :
    ∀ c ∈ s.data, 45 ≤ c.toNat ∧ c.toNat ≤ 57 := by
  intro c hc
  simp only [isSignedDecimal] at h
  split at h
  · rename_i t heq
    rw [heq, List.mem_cons] at hc
    cases hc with
    | inl hceq =>
      subst hceq
      decide
    | inr hct => exact udec_chars t h c hct
  · exact udec_chars s.data h c hc

/-- The character data of a rendered `EXTINF` line. -/
theorem as_m3u_data (d : EXTINF) :
    (EXTINF.as_m3u d).data =
      extinfHead.data ++ (d.duration.data ++ ',' :: d.title.data) := by
  simp [EXTINF.as_m3u, String.data_append]

/-- A rendered `EXTINF` line with a numeric duration and a boundary-free
title contains no line-boundary character. -/
theorem as_m3u_boundary_free (d : EXTINF)
    (hdur : isSignedDecimal d.duration = true)
    (htitle : ∀ c ∈ d.title.data, isLineBoundary c = false) :
    ∀ c ∈ (EXTINF.as_m3u d).data, isLineBoundary c = false := by
  intro c hc
  rw [as_m3u_data, List.mem_append] at hc
  cases hc with
  | inl hhead =>
    exact (by decide : ∀ x ∈ extinfHead.data, isLineBoundary x = false) c hhead
  | inr hrest =>
    rw [List.mem_append] at hrest
    cases hrest with
    | inl hdurmem =>
      have hn := sdec_chars d.duration hdur c hdurmem
      simp only [isLineBoundary, Bool.or_eq_false_iff, beq_eq_false_iff_ne,
        ne_eq]
      omega
    | inr ht =>
      rw [List.mem_cons] at ht
      cases ht with
      | inl hceq =>
        subst hceq
        decide
      | inr htt => exact htitle c htt

/-- Stripping a literal head from a list beginning with exactly that head
succeeds and returns the remainder. -/
theorem stripHead_append : ∀ (p r : List Char), stripHead p (p ++ r) = some r := by
  intro p
  induction p with
  | nil => intro r; rfl
  | cons c cs ih =>
    intro r
    simp [stripHead, ih]

/-- `takeWhile` over a satisfying block followed by a failing element yields
the block. -/
theorem takeWhile_append_cons {α : Type} (p : α → Bool) (a : List α) (x : α)
    (b : List α) (ha : ∀ c ∈ a, p c = true) (hx : p x = false) :
    (a ++ x :: b).takeWhile p = a := by
  induction a with
  | nil => simp [List.takeWhile_cons, hx]
  | cons c cs ih =>
    rw [List.cons_append, List.takeWhile_cons, ha c (by simp)]
    simp only [if_true]
    rw [ih (fun y hy => ha y (by simp [hy]))]

/-- `dropWhile` over a satisfying block followed by a failing element yields
the failing element and the tail. -/
theorem dropWhile_append_cons {α : Type} (p : α → Bool) (a : List α) (x : α)
    (b : List α) (ha : ∀ c ∈ a, p c = true) (hx : p x = false) :
    (a ++ x :: b).dropWhile p = x :: b := by
  induction a with
  | nil => simp [List.dropWhile_cons, hx]
  | cons c cs ih =>
    rw [List.cons_append, List.dropWhile_cons, ha c (by simp)]
    simp only [if_true]
    exact ih (fun y hy => ha y (by simp [hy]))

/-- Line-level round trip for the Metadata directive: re-parsing a rendered
`EXTINF` line with a numeric duration yields the same directive. -/
theorem from_as (d : EXTINF) (hdur : isSignedDecimal d.duration = true) :
    EXTINF.from_m3u_string (EXTINF.as_m3u d) = Except.ok d := by
  have hcomma : ∀ c ∈ d.duration.data, (!(c == ',')) = true := by
    intro c hc
    have hn := sdec_chars d.duration hdur c hc
    rw [Bool.not_eq_true']
    by_contra hb
    rw [Bool.not_eq_false, beq_iff_eq] at hb
    subst hb
    revert hn
    decide
  have hnotcomma : (!((',' : Char) == ',')) = false := by decide
  simp only [EXTINF.from_m3u_string, as_m3u_data, stripHead_append]
  rw [takeWhile_append_cons _ _ _ _ hcomma hnotcomma,
    dropWhile_append_cons _ _ _ _ hcomma hnotcomma]
  simp only [mk_data, hdur, if_true]

/-- A list is a `isPrefixOf` of itself followed by anything. -/
theorem isPrefixOf_append_self (p t : List Char) :
    List.isPrefixOf p (p ++ t) = true :=
  List.isPrefixOf_iff_prefix.mpr (List.prefix_append p t)

/-- A rendered `EXTINF` line starts with the `EXTINF` prefix, so the registry
matches it to the `EXTINF` descriptor. -/
theorem as_m3u_matches (d : EXTINF) :
    matched_prefix_dict (EXTINF.as_m3u d) ALL_DIRECTIVE_PREFIXES none =
      some ⟨EXTINF.from_m3u_string⟩ := by
  have hstart : pyStartswith (EXTINF.as_m3u d) extinfHead = true := by
    simp only [pyStartswith, as_m3u_data]
    exact isPrefixOf_append_self _ _
  simp [matched_prefix_dict, ALL_DIRECTIVE_PREFIXES, hstart]

/-- Splitting the serialized form of a playlist of bare directives recovers
exactly the rendered directive lines. -/
theorem splitlines_dumps_directives (ds : List EXTINF)
    (h : ∀ d ∈ ds, isSignedDecimal d.duration = true ∧
      ∀ c ∈ d.title.data, isLineBoundary c = false) :
    pySplitlines (M3UParser.dumps (ds.map M3UObj.directive)) =
      ds.map EXTINF.as_m3u := by
  induction ds with
  | nil => rfl
  | cons d ds ih =>
    rw [List.map_cons, List.map_cons, dumps_cons]
    have hitem : M3UParser.dumpsItem (M3UObj.directive d) = EXTINF.as_m3u d := rfl
    rw [hitem]
    simp only [pySplitlines, String.data_append]
    rw [List.append_assoc, List.singleton_append]
    rw [splitAux_line (EXTINF.as_m3u d).data
      (as_m3u_boundary_free d (h d (by simp)).1 (h d (by simp)).2) []
      (M3UParser.dumps (ds.map M3UObj.directive)).data]
    rw [List.reverse_nil, List.nil_append, mk_data]
    have htail := ih (fun x hx => h x (by simp [hx]))
    simp only [pySplitlines] at htail
    rw [htail]

/-- Parsing a list of rendered `EXTINF` lines yields, from any generator
state, exactly the directives in order and no error. -/
theorem loadsGo_directives (fs : FS) (ds : List EXTINF)
    (h : ∀ d ∈ ds, isSignedDecimal d.duration = true) :
    ∀ (pl : Option ParsedItem) (last : Option EXTINF),
      M3UParser.loadsGo fs pl last (ds.map EXTINF.as_m3u) =
        (ds.map (fun d => some (ParsedItem.directive d)), none) := by
  induction ds with
  | nil =>
    intro pl last
    rfl
  | cons d ds ih =>
    intro pl last
    rw [List.map_cons, List.map_cons]
    simp only [M3UParser.loadsGo, as_m3u_matches d,
      from_as d (h d (by simp))]
    rw [ih (fun x hx => h x (by simp [hx]))]

/-- C1 counterexample: the round trip fails at the one-item playlist holding
a plain `AudioFileRef` without external info — `dumps` prepends a spurious
newline, so `loads` of the result yields TWO items (an empty-source
`AudioFileRef` and the real one) instead of the original single item. -/
theorem roundtrip_fails_on_plain_fileref :
    (M3UParser.loads emptyFS (M3UParser.dumps
        [M3UObj.file (AudioFileRef.init emptyFS "/music/a.mp3" none true true)])).1.length
      = 2
    ∧ (M3UParser.loads emptyFS (M3UParser.dumps
        [M3UObj.file (AudioFileRef.init emptyFS "/music/a.mp3" none true true)])).1 ≠
        [some (ParsedItem.file
          (AudioFileRef.init emptyFS "/music/a.mp3" none true true))] := by
  constructor
  · rfl
  · decide

/-- C1 amended: the round trip holds for playlists of bare directives — for
every sequence of `EXTINF` directives whose durations are numeric and whose
titles contain no line-boundary character, `loads` of `dumps` yields exactly
those directives, in order, with no error. -/
theorem roundtrip_directive_playlists (fs : FS) (ds : List EXTINF)
    (h : ∀ d ∈ ds, isSignedDecimal d.duration = true ∧
      ∀ c ∈ d.title.data, isLineBoundary c = false) :
    M3UParser.loads fs (M3UParser.dumps (ds.map M3UObj.directive)) =
      (ds.map (fun d => some (ParsedItem.directive d)), none) := by
  rw [M3UParser.loads, splitlines_dumps_directives ds h]
  exact loadsGo_directives fs ds (fun d hd => (h d hd).1) none none

/-- Witness for the amended C1 at the one-directive playlist
`#EXTINF:123,My Song`. -/
theorem roundtrip_directive_playlists_witness :
    M3UParser.loads emptyFS
        (M3UParser.dumps [M3UObj.directive ⟨"123", "My Song"⟩]) =
      ([some (ParsedItem.directive ⟨"123", "My Song"⟩)], none) := by
  have h := roundtrip_directive_playlists emptyFS [⟨"123", "My Song"⟩]
    (by decide)
  simpa using h
